import Mathlib

/-!
Verification development for the greensboro-checkin repository.

Shallow embedding of the check-in web application: the Attendance data model
(app/models.py), the QR check-in flow (app/routers/attendance.py), the admin
record operations (app/main.py) and the metrics aggregations
(app/routers/metrics.py). The database is modelled as a list of Attendance
rows; each request handler is a pure function from its inputs and the current
table state to a response and the new table state. Clock and timezone lookups
are passed in as explicit arguments.
-/

/-- A calendar date (year, month, day), as produced by Python date objects. -/
structure Date where
  year : Nat
  month : Nat
  day : Nat
deriving DecidableEq, Repr

/-- A wall-clock timestamp with minute precision (the application only ever
formats or converts timestamps at minute granularity). Models Python datetime
values; seconds and finer are irrelevant to every claim. -/
structure DateTime where
  date : Date
  hour : Nat
  minute : Nat
deriving DecidableEq, Repr

/-- Gregorian leap-year rule, as used by the Python datetime module. -/
def isLeap (y : Nat) : Bool :=
  y % 4 == 0 && (y % 100 != 0 || y % 400 == 0)

/-- Length of a month in the Gregorian calendar. -/
def daysInMonth (y m : Nat) : Nat :=
  if m == 2 then (if isLeap y then 29 else 28)
  else if m == 4 || m == 6 || m == 9 || m == 11 then 30
  else 31

/-- Left-pad the decimal rendering of a number with zeros to width k, as the
zero-padded fields of strftime do. -/
def padNum (k n : Nat) : String :=
  let s := toString n
  String.mk (List.replicate (k - s.length) '0') ++ s

/-- strftime("%Y-%m-%d") on a date. -/
def formatDate (d : Date) : String :=
  padNum 4 d.year ++ "-" ++ padNum 2 d.month ++ "-" ++ padNum 2 d.day

/-- The next calendar day, used when a timezone conversion crosses midnight. -/
def dateSucc (d : Date) : Date :=
  if d.day < daysInMonth d.year d.month then ⟨d.year, d.month, d.day + 1⟩
  else if d.month < 12 then ⟨d.year, d.month + 1, 1⟩
  else ⟨d.year + 1, 1, 1⟩

/-- Conversion of a naive America/New_York wall-clock time to UTC, modelling
dt.replace(tzinfo=ZoneInfo("America/New_York")).astimezone(timezone.utc) in
app/main.py lines 296-297 and 349-350. offMin is the number of minutes UTC is
ahead of the eastern zone at that instant (300 under EST, 240 under EDT); the
ZoneInfo offset lookup is passed in as this argument. For offMin at most 1440
the conversion crosses at most one midnight, which covers every real eastern
offset. -/
def toUTC (dt : DateTime) (offMin : Nat) : DateTime :=
  let t := dt.hour * 60 + dt.minute + offMin
  if t < 1440 then ⟨dt.date, t / 60, t % 60⟩
  else ⟨dateSucc dt.date, (t - 1440) / 60, (t - 1440) % 60⟩

/-- One row of the attendance table, from the Attendance model in
app/models.py lines 17-47. Column types: strings stay strings, nullable
columns become Option, Float geo columns become rationals, the Boolean
is_valid becomes Bool (nullable=False with default True in the model).
The visit_reason and business_line columns are elided in models.py behind the
comment "... (rest of your columns are fine) ..." although every router and
the admin dashboard read and write them. Modelled from the spec: the data
model in spec section 3 lists visit_reason and business_line as nullable
Attendance attributes, so they appear here as Option String columns. -/
structure Attendance where
  id : Nat
  event_type : String
  timestamp_utc : DateTime
  local_date : String
  site : String
  user_name : Option String := none
  user_email : Option String := none
  source : String := "qr"
  user_agent : Option String := none
  device_local_id : Option String := none
  geo_lat : Option ℚ := none
  geo_lon : Option ℚ := none
  signature_path : Option String := none
  is_valid : Bool := true
  visit_reason : Option String := none
  business_line : Option String := none
  notes : Option String := none
deriving DecidableEq, Repr

/-- The id the database generates for a newly inserted row: one more than the
largest id in the table (fresh, monotone, matching an autoincrement key). -/
def freshId (state : List Attendance) : Nat :=
  state.foldl (fun a r => max a r.id) 0 + 1

/-- The geo object of the finalize JSON body (app/routers/attendance.py
lines 21-23). -/
structure GeoPayload where
  lat : Option ℚ := none
  lon : Option ℚ := none
deriving DecidableEq, Repr

/-- The finalize JSON body (app/routers/attendance.py lines 25-32). The
pydantic model declares exactly these fields; in particular it declares no
visitReason field, although line 145 of the same file reads
payload.visitReason. -/
structure FinalizePayload where
  token : String
  site : String
  deviceId : Option String := none
  userAgent : Option String := none
  geo : Option GeoPayload := none
  nameText : Option String := none
  signatureDataUrl : Option String := none
deriving DecidableEq, Repr

/-- A session user as stored by the login flows: the dictionary
request.session["user"] with optional email and name entries. -/
structure SessionUser where
  name : Option String := none
  email : Option String := none
deriving DecidableEq, Repr

/-- Python truthiness of the optional string site parameter:
`site or settings.default_site` falls back when site is absent or the empty
string (app/routers/attendance.py line 51). -/
def siteOrDefault (site : Option String) (defaultSite : String) : String :=
  match site with
  | some s => if s == "" then defaultSite else s
  | none => defaultSite

/-- Site resolution of the scan route, lines 51-53: fall back to the default
site, then replace any site code missing from the configured allow-list by the
default site. -/
def resolveSite (site : Option String) (sites : List String) (defaultSite : String) : String :=
  let s := siteOrDefault site defaultSite
  if sites.contains s then s else defaultSite

/-- Local date string computed by scan, lines 56-62: strftime of the current
America/New_York date, falling back to the UTC date when loading the timezone
raises. estDate is the eastern date of the current instant when ZoneInfo
succeeds, none when it raises. -/
def localDateOf (nowUtc : DateTime) (estDate : Option Date) : String :=
  match estDate with
  | some d => formatDate d
  | none => formatDate nowUtc.date

/-- Responses of the scan route. -/
inductive ScanOutcome
  /-- Redirect to /login, remembering the intended site in the session. -/
  | redirectLogin (intendedSite : String)
  /-- The rendered scan page carrying the continuation token and the site. -/
  | page (token : String) (site : String)
deriving DecidableEq, Repr

/-- The scan route, app/routers/attendance.py lines 36-87. When SSO is
required and there is no session user it stores the intended site and
redirects to login; otherwise it unconditionally inserts one provisional
check_in row (no duplicate check happens here, see the comment at line 64)
and returns the generated row id as the continuation token on the rendered
page. When SSO is not required the user fields stay None because the session
is never read (lines 38-49). -/
def scan (ssoRequired : Bool) (sessionUser : Option SessionUser)
    (site : Option String) (sites : List String) (defaultSite : String)
    (nowUtc : DateTime) (estDate : Option Date)
    (state : List Attendance) : ScanOutcome × List Attendance :=
  match ssoRequired, sessionUser with
  | true, none => (.redirectLogin (siteOrDefault site defaultSite), state)
  | sso, su =>
    let userName : Option String := match sso, su with
      | true, some u => u.name
      | _, _ => none
    let userEmail : Option String := match sso, su with
      | true, some u => u.email
      | _, _ => none
    let siteCode := resolveSite site sites defaultSite
    let newRec : Attendance :=
      { id := freshId state
        site := siteCode
        event_type := "check_in"
        is_valid := true
        source := "qr_scan_provisional"
        timestamp_utc := nowUtc
        local_date := localDateOf nowUtc estDate
        user_name := userName
        user_email := userEmail }
    (.page (toString newRec.id) siteCode, state ++ [newRec])

/-- Python int() applied to a string: strip surrounding whitespace, accept an
optional single sign, then a nonempty digit run in which single underscores
may separate digits (no leading, trailing or doubled underscore). Returns
none exactly when int() raises ValueError. -/
def noDoubleUnderscore : List Char → Bool
  | '_' :: '_' :: _ => false
  | _ :: rest => noDoubleUnderscore rest
  | [] => true

/-- Digit-run well-formedness for pyInt: nonempty, only digits and
underscores, starts and ends with a digit, no doubled underscore. -/
def wellFormedDigits (cs : List Char) : Bool :=
  !cs.isEmpty &&
  cs.all (fun c => c.isDigit || c == '_') &&
  (match cs.head? with | some c => c.isDigit | none => false) &&
  (match cs.getLast? with | some c => c.isDigit | none => false) &&
  noDoubleUnderscore cs

/-- Numeric value of a digit run once underscores are removed. -/
def digitsVal (cs : List Char) : Nat :=
  (cs.filter (fun c => c != '_')).foldl (fun a c => a * 10 + (c.toNat - 48)) 0

/-- Python int(string): some value, or none when int() raises ValueError
(app/routers/attendance.py lines 91-94 catch exactly that case). -/
def pyInt (s : String) : Option Int :=
  let t := (((s.toList.dropWhile Char.isWhitespace).reverse.dropWhile
      Char.isWhitespace).reverse)
  match t with
  | '+' :: rest => if wellFormedDigits rest then some (digitsVal rest) else none
  | '-' :: rest => if wellFormedDigits rest then some (-(digitsVal rest : Int)) else none
  | rest => if wellFormedDigits rest then some (digitsVal rest) else none

/-- Responses of the finalize route. -/
inductive FinalizeResult
  /-- raise HTTPException(status_code=..., detail=...). -/
  | httpError (status : Nat) (detail : String)
  /-- The JSON body with ok False and a message (line 131). -/
  | dupRejected (message : String)
  /-- The unhandled AttributeError raised at line 145 when reading
  payload.visitReason, surfaced by the framework as a 500 response. -/
  | attributeError
  /-- The JSON body with ok True and the token (line 158). Unreachable in the
  source as written: every execution that passes the duplicate check raises
  at line 145 first. -/
  | okFinalized (token : String)
deriving DecidableEq, Repr

/-- The duplicate check of finalize, app/routers/attendance.py lines 100-119:
only performed when the session carries a truthy email and the token row is a
check_in; looks for any other row of that email dated today in the eastern
zone that is a valid check_in with the finalized source tag. The site is not
part of the query. todayEast is strftime of the current America/New_York
date (line 106); pk is the parsed token. -/
def duplicateFound (sessionEmail : Option String) (pk : Int)
    (recEventType : String) (todayEast : String)
    (state : List Attendance) : Bool :=
  match sessionEmail with
  | none => false
  | some e =>
      e != "" && recEventType == "check_in" &&
      state.any (fun r =>
        (r.id : Int) != pk &&
        r.local_date == todayEast &&
        r.user_email == some e &&
        r.event_type == "check_in" &&
        r.is_valid &&
        r.source == "qr_scan_finalized")

/-- The in-place invalidation of the provisional row on a duplicate attempt,
lines 122-126: is_valid becomes False, an explanatory note is attached and
the source becomes the duplicate tag; the row itself is kept. -/
def invalidateDup (pk : Int) (r : Attendance) : Attendance :=
  if (r.id : Int) == pk then
    { r with is_valid := false
             notes := some "Attempted duplicate check-in."
             source := "qr_scan_duplicate" }
  else r

/-- The finalize route, app/routers/attendance.py lines 89-158.
Line 92: int(payload.token), ValueError mapped to a 400. Line 96: db.get by
primary key, a missing row mapped to a 404. Lines 100-131: the duplicate
check; on a hit the provisional row is invalidated in place, committed, and
the ok False body returned. Lines 138-158 then finalize the row, but line 145
reads payload.visitReason and FinalizePayload (lines 25-32) declares no such
field, so pydantic raises AttributeError there; the field updates of lines
140-142 were never committed and are rolled back when get_db closes the
session (app/database.py lines 28-33), so the table is unchanged and the
framework answers 500. sessionEmail is request.session.get("user",
dict()).get("email") and todayEast the current eastern date string. -/
def finalize (payload : FinalizePayload) (sessionEmail : Option String)
    (todayEast : String) (state : List Attendance) :
    FinalizeResult × List Attendance :=
  match pyInt payload.token with
  | none => (.httpError 400 "Invalid token", state)
  | some pk =>
    match state.find? (fun r => (r.id : Int) == pk) with
    | none => (.httpError 404 "Token not found", state)
    | some recRow =>
      if duplicateFound sessionEmail pk recRow.event_type todayEast state then
        (.dupRejected "Already checked in today.", state.map (invalidateDup pk))
      else
        (.attributeError, state)

/-- Number of valid finalized check_in rows of one email on one local date,
the quantity the duplicate policy is meant to cap at one. -/
def finalizedValidCount (email : String) (ldate : String)
    (state : List Attendance) : Nat :=
  (state.filter (fun r =>
    r.user_email == some email &&
    r.local_date == ldate &&
    r.event_type == "check_in" &&
    r.is_valid &&
    r.source == "qr_scan_finalized")).length

/-- The admin add form fields, app/main.py lines 280-284: user_name,
visit_reason and site are required, business_line is optional (Form(None)),
custom_date is the datetime-local string. -/
structure AddForm where
  user_name : String
  visit_reason : String
  business_line : Option String := none
  site : String
  custom_date : String
deriving DecidableEq, Repr

/-- The admin edit form fields, app/main.py lines 320-325: like the add form
plus the record id. -/
structure EditForm where
  record_id : Int
  user_name : String
  visit_reason : String
  business_line : Option String := none
  site : String
  custom_date : String
deriving DecidableEq, Repr

/-- Responses of the admin mutation routes: a redirect to the login page on a
cookie mismatch, otherwise a redirect back to the dashboard. -/
inductive AdminResp
  | redirectLogin
  | redirectAdmin
deriving DecidableEq, Repr

/-- The static admin cookie value compared by exact string match
(app/main.py line 159 sets it, lines 176, 287, 328, 368 compare it). -/
def adminToken : String := "super_secret_token"

/-- Split a character list at every occurrence of a separator character,
used to model strptime field extraction on the fixed format strings. -/
def splitOnChar (c : Char) : List Char → List (List Char)
  | [] => [[]]
  | x :: xs =>
    let r := splitOnChar c xs
    if x == c then [] :: r
    else
      match r with
      | h :: t => (x :: h) :: t
      | [] => [[x]]

/-- One numeric strptime field: a nonempty all-digit run of at most maxLen
characters (the zero-padded directives of strptime also accept shorter digit
runs). -/
def parseNumField (cs : List Char) (maxLen : Nat) : Option Nat :=
  if !cs.isEmpty && cs.all Char.isDigit && cs.length ≤ maxLen then
    some (cs.foldl (fun a c => a * 10 + (c.toNat - 48)) 0)
  else none

/-- datetime.strptime(custom_date, "%Y-%m-%dT%H:%M") of app/main.py lines 292
and 341: split on the literal T, the date part on dashes, the time part on a
colon, read the five numeric fields and validate them exactly as the datetime
constructor does (year at least 1, month 1-12, day within the month, hour
below 24, minute below 60). none models the ValueError path. -/
def parseCustomDate (s : String) : Option DateTime :=
  match splitOnChar 'T' s.toList with
  | [ds, ts] =>
    match splitOnChar '-' ds, splitOnChar ':' ts with
    | [ys, ms, dcs], [hs, mins] =>
      match parseNumField ys 4, parseNumField ms 2, parseNumField dcs 2,
          parseNumField hs 2, parseNumField mins 2 with
      | some y, some mo, some d, some h, some mi =>
        if 1 ≤ y && 1 ≤ mo && mo ≤ 12 && 1 ≤ d && d ≤ daysInMonth y mo &&
            h < 24 && mi < 60 then
          some ⟨⟨y, mo, d⟩, h, mi⟩
        else none
      | _, _, _, _, _ => none
    | _, _ => none
  | _ => none

/-- The row inserted by the admin add route, app/main.py lines 299-309: the
admin-entered eastern wall time converted to UTC for timestamp_utc, and
local_date taken from the eastern-time value itself, which keeps the
calendar date the admin typed. -/
def adminNewRec (form : AddForm) (dt : DateTime) (offEast : Nat)
    (newId : Nat) : Attendance :=
  { id := newId
    user_name := some form.user_name
    visit_reason := some form.visit_reason
    business_line := form.business_line
    site := form.site
    timestamp_utc := toUTC dt offEast
    local_date := formatDate dt.date
    event_type := "check_in"
    source := "admin_manual"
    is_valid := true }

/-- The admin add route, app/main.py lines 277-315. The admin cookie is
checked first; a mismatch redirects to the login page before the table is
touched. Then the custom_date is parsed; any failure is swallowed by the
except at line 312 and nothing is inserted; on success one admin_manual row
is inserted. Either way the route redirects back to the dashboard. offEast is
the America/New_York UTC offset in minutes at the entered instant. -/
def admin_add_record (cookie : Option String) (form : AddForm) (offEast : Nat)
    (state : List Attendance) : AdminResp × List Attendance :=
  if cookie == some adminToken then
    match parseCustomDate form.custom_date with
    | some dt => (.redirectAdmin, state ++ [adminNewRec form dt offEast (freshId state)])
    | none => (.redirectAdmin, state)
  else (.redirectLogin, state)

/-- Field updates of the admin edit route that precede the timestamp block,
app/main.py lines 333-336. -/
def editFields (r : Attendance) (form : EditForm) : Attendance :=
  { r with user_name := some form.user_name
           visit_reason := some form.visit_reason
           business_line := form.business_line
           site := form.site }

/-- Timestamp update of the admin edit route, app/main.py lines 339-355: on a
parseable custom_date both timestamp_utc and local_date are re-derived, with
local_date again the eastern-time calendar date as typed; a ValueError keeps
the old date fields. -/
def editDate (r : Attendance) (customDate : String) (offEast : Nat) : Attendance :=
  match parseCustomDate customDate with
  | some dt => { r with timestamp_utc := toUTC dt offEast
                        local_date := formatDate dt.date }
  | none => r

/-- The admin edit route, app/main.py lines 317-360: cookie check first (a
mismatch redirects to login with the table untouched), then the record is
fetched by id; when present its fields and possibly its timestamp are
updated and committed. -/
def admin_edit_record (cookie : Option String) (form : EditForm) (offEast : Nat)
    (state : List Attendance) : AdminResp × List Attendance :=
  if cookie == some adminToken then
    match state.find? (fun r => (r.id : Int) == form.record_id) with
    | some _ =>
      (.redirectAdmin, state.map (fun r =>
        if (r.id : Int) == form.record_id then
          editDate (editFields r form) form.custom_date offEast
        else r))
    | none => (.redirectAdmin, state)
  else (.redirectLogin, state)

/-- The admin delete route, app/main.py lines 362-376: cookie check first,
then the record fetched by id is deleted when present. -/
def admin_delete_record (cookie : Option String) (recordId : Int)
    (state : List Attendance) : AdminResp × List Attendance :=
  if cookie == some adminToken then
    (.redirectAdmin, state.eraseP (fun r => (r.id : Int) == recordId))
  else (.redirectLogin, state)

/-- Errors raised by the Python runtime and surfaced as 500 responses. -/
inductive PyError
  | typeError
deriving DecidableEq, Repr

/-- The Python class datetime.date called as a plain function with positional
integer arguments: it needs year, month and day, and raises TypeError for any
other arity. app/routers/metrics.py line 31 passes this class (imported at
line 6) as the second argument of the SQLAlchemy cast(); cast instantiates
its type argument by calling it with no arguments (type_api.to_instance), so
the query construction evaluates this function on the empty argument list. -/
def dateClassCall : List Int → Except PyError Date
  | [y, m, d] => .ok ⟨y.toNat, m.toNat, d.toNat⟩
  | _ => .error .typeError

/-- Proleptic-Gregorian day number of a date, as Python date.toordinal. Used
to stand for calendar days in the daily-counts aggregation, where the source
compares, orders and strftime-renders dates: the ordinal determines the date,
so the rendered YYYY-MM-DD labels are in bijection with these numbers. -/
def toOrdinal (d : Date) : Nat :=
  let n := d.year - 1
  let beforeMonth : Nat :=
    match d.month with
    | 1 => 0 | 2 => 31 | 3 => 59 | 4 => 90 | 5 => 120 | 6 => 151
    | 7 => 181 | 8 => 212 | 9 => 243 | 10 => 273 | 11 => 304 | _ => 334
  365 * n + (n / 4 + n / 400 - n / 100) + beforeMonth +
    (if isLeap d.year && 2 < d.month then 1 else 0) + d.day

/-- The chart payload of the daily endpoint: seven day labels (as day
ordinals, see toOrdinal) and the per-day counts. -/
structure ChartData where
  labels : List Nat
  data : List Nat
deriving DecidableEq, Repr

/-- The intended aggregation of app/routers/metrics.py lines 25-51: the seven
days ending today, in ascending order, each with the number of valid check_in
rows whose timestamp has that UTC calendar date, and zero for days without
rows. today is the current UTC date as a day ordinal. -/
def dailyCounts (rows : List Attendance) (today : Nat) : ChartData :=
  let start := today - 6
  let labels := (List.range 7).map (fun i => start + i)
  let data := labels.map (fun day =>
    (rows.filter (fun r =>
      toOrdinal r.timestamp_utc.date == day &&
      r.event_type == "check_in" &&
      r.is_valid)).length)
  ⟨labels, data⟩

/-- The daily endpoint, app/routers/metrics.py lines 19-51. Building the
query evaluates cast(Attendance.timestamp_utc, date) where date is the
Python class datetime.date rather than the SQLAlchemy Date type; SQLAlchemy
calls the type argument with no arguments, datetime.date() raises TypeError,
and the handler aborts before the query runs, so the framework answers 500.
The aggregation the handler would otherwise return is dailyCounts. -/
def get_daily_checkins_last_week (rows : List Attendance) (today : Nat) :
    Except PyError ChartData :=
  match dateClassCall [] with
  | .error e => .error e
  | .ok _ => .ok (dailyCounts rows today)

/-- Grouping key used by the monthly summary, app/routers/metrics.py lines
133-134: the stored value, with None and the empty string (both falsy in
Python) grouped under the N/A key. -/
def keyOr (o : Option String) : String :=
  match o with
  | some s => if s == "" then "N/A" else s
  | none => "N/A"

/-- Increment the count of one key in an association list, appending a new
key at the end, matching insertion-ordered defaultdict counting. -/
def bump (k : String) : List (String × Nat) → List (String × Nat)
  | [] => [(k, 1)]
  | (k₀, c) :: t => if k₀ == k then (k₀, c + 1) :: t else (k₀, c) :: bump k t

/-- Occurrence counts of the keys of a list of rows, in first-seen order,
modelling the defaultdict(int) loop of lines 129-136. -/
def countsBy (key : Attendance → String) (rows : List Attendance) :
    List (String × Nat) :=
  rows.foldl (fun acc r => bump (key r) acc) []

/-- The rows of one calendar month as filtered at lines 117-125: the year and
month extracted from the UTC timestamp, valid check_in rows only. -/
def monthRecords (rows : List Attendance) (year month : Nat) : List Attendance :=
  rows.filter (fun r =>
    r.timestamp_utc.date.year == year &&
    r.timestamp_utc.date.month == month &&
    r.event_type == "check_in" &&
    r.is_valid)

/-- Python round() to an integer: round half to even. -/
def pyRoundHalfEven (q : ℚ) : ℤ :=
  if q - ⌊q⌋ < 1 / 2 then ⌊q⌋
  else if 1 / 2 < q - ⌊q⌋ then ⌊q⌋ + 1
  else if ⌊q⌋ % 2 = 0 then ⌊q⌋ else ⌊q⌋ + 1

/-- The percentage of line 144: round((count / total) * 100, 1), modelled
over the exact rationals as rounding ten times the percentage half-to-even
and dividing back by ten. -/
def roundPct (c total : Nat) : ℚ :=
  (pyRoundHalfEven ((c : ℚ) * 100 / (total : ℚ) * 10) : ℚ) / 10

/-- The breakdown formatter of lines 140-149. The source renders each entry
as the string "count (percent%)"; the model keeps the key, the count and the
numeric percent, which determine that string. With a positive total each
percent is the rounded share; with a zero total each listed key shows 0.0
(and the counts dictionary is necessarily empty in that case, since a zero
total means no rows were counted). -/
def format_breakdown (counts : List (String × Nat)) (total : Nat) :
    List (String × Nat × ℚ) :=
  if 0 < total then counts.map (fun p => (p.1, p.2, roundPct p.2 total))
  else counts.map (fun p => (p.1, p.2, (0 : ℚ)))

/-- The monthly summary response body of lines 155-160, with the two
formatted breakdowns and the month total. -/
structure MonthlySummary where
  total_checkins : Nat
  reason_breakdown : List (String × Nat × ℚ)
  business_line_breakdown : List (String × Nat × ℚ)
deriving DecidableEq, Repr

/-- The monthly summary endpoint, app/routers/metrics.py lines 97-160, after
its YYYY-MM validation (the claim quantifies over valid months, so year and
month arrive here as numbers): filter the month, count, and build both
percentage breakdowns. -/
def get_monthly_summary (rows : List Attendance) (year month : Nat) :
    MonthlySummary :=
  let recs := monthRecords rows year month
  let total := recs.length
  { total_checkins := total
    reason_breakdown := format_breakdown (countsBy (fun r => keyOr r.visit_reason) recs) total
    business_line_breakdown := format_breakdown (countsBy (fun r => keyOr r.business_line) recs) total }

/-- Sum of the counts of an association list. -/
def sumSnd (l : List (String × Nat)) : Nat :=
  (l.map Prod.snd).sum

/-- Sum of the reported percentages of a formatted breakdown. -/
def pctSum (l : List (String × Nat × ℚ)) : ℚ :=
  (l.map (fun e => e.2.2)).sum

/-! Helper lemmas about rounding and counted sums, shared by the metrics
theorems. -/

theorem pyRoundHalfEven_close (q : ℚ) : |(pyRoundHalfEven q : ℚ) - q| ≤ 1 / 2 := by
  have h0 : (⌊q⌋ : ℚ) ≤ q := Int.floor_le q
  have h1 : q < ⌊q⌋ + 1 := Int.lt_floor_add_one q
  unfold pyRoundHalfEven
  split_ifs with ha hb hc
  · rw [abs_le]
    constructor <;> linarith
  · rw [abs_le]
    push_cast
    constructor <;> linarith
  · rw [abs_le]
    have ha₁ := le_of_not_lt ha
    constructor <;> linarith
  · rw [abs_le]
    have hb₁ := le_of_not_lt hb
    push_cast
    constructor <;> linarith

theorem roundPct_close (c total : Nat) :
    |roundPct c total - (c : ℚ) * 100 / (total : ℚ)| ≤ 1 / 20 := by
  have h := pyRoundHalfEven_close ((c : ℚ) * 100 / (total : ℚ) * 10)
  rw [abs_le] at h
  rw [roundPct, abs_le]
  constructor <;> linarith [h.1, h.2]

theorem sum_sub_sum_abs_le {α : Type} (f g : α → ℚ) (ε : ℚ) :
    ∀ l : List α, (∀ x ∈ l, |f x - g x| ≤ ε) →
      |(l.map f).sum - (l.map g).sum| ≤ l.length * ε
  | [], _ => by simp
  | a :: t, h => by
    have h1 := h a (List.mem_cons_self a t)
    have h2 := sum_sub_sum_abs_le f g ε t (fun x hx => h x (List.mem_cons_of_mem a hx))
    simp only [List.map_cons, List.sum_cons, List.length_cons]
    have hrw : f a + (t.map f).sum - (g a + (t.map g).sum) =
        (f a - g a) + ((t.map f).sum - (t.map g).sum) := by ring
    rw [hrw]
    calc |(f a - g a) + ((t.map f).sum - (t.map g).sum)|
        ≤ |f a - g a| + |(t.map f).sum - (t.map g).sum| := abs_add _ _
      _ ≤ ε + t.length * ε := by linarith
      _ = (t.length + 1 : ℚ) * ε := by ring
      _ = ((t.length + 1 : ℕ) : ℚ) * ε := by push_cast; ring

theorem sum_map_mul_const {α : Type} (l : List α) (f : α → ℚ) (t : ℚ) :
    (l.map (fun x => f x * t)).sum = (l.map f).sum * t := by
  induction l with
  | nil => simp
  | cons a tl ih => simp only [List.map_cons, List.sum_cons, ih]; ring

theorem sum_map_snd_cast (l : List (String × Nat)) :
    (l.map (fun p => ((p.2 : ℚ)))).sum = (sumSnd l : ℚ) := by
  induction l with
  | nil => simp [sumSnd]
  | cons a t ih =>
    simp only [List.map_cons, List.sum_cons, ih, sumSnd]
    push_cast
    ring

theorem sumSnd_bump (k : String) (l : List (String × Nat)) :
    sumSnd (bump k l) = sumSnd l + 1 := by
  induction l with
  | nil => simp [bump, sumSnd]
  | cons a t ih =>
    obtain ⟨k₀, c⟩ := a
    by_cases hk : (k₀ == k) = true
    · simp [bump, hk, sumSnd]
      omega
    · simp only [bump, hk, Bool.false_eq_true, if_false]
      simp only [sumSnd, List.map_cons, List.sum_cons] at ih ⊢
      omega

theorem sumSnd_countsBy_aux (key : Attendance → String) :
    ∀ (rows : List Attendance) (acc : List (String × Nat)),
      sumSnd (rows.foldl (fun a r => bump (key r) a) acc) = sumSnd acc + rows.length
  | [], acc => by simp
  | r :: t, acc => by
    simp only [List.foldl_cons, List.length_cons]
    rw [sumSnd_countsBy_aux key t (bump (key r) acc), sumSnd_bump]
    omega

theorem sumSnd_countsBy (key : Attendance → String) (rows : List Attendance) :
    sumSnd (countsBy key rows) = rows.length := by
  rw [countsBy, sumSnd_countsBy_aux]
  simp [sumSnd]

theorem sum_exact_pct (counts : List (String × Nat)) (total : Nat)
    (hsum : sumSnd counts = total) (ht : 0 < total) :
    (counts.map (fun p => (p.2 : ℚ) * 100 / (total : ℚ))).sum = 100 := by
  have htQ : (total : ℚ) ≠ 0 := by
    have : total ≠ 0 := Nat.pos_iff_ne_zero.mp ht
    exact_mod_cast this
  have hfun : ∀ p : String × Nat,
      (p.2 : ℚ) * 100 / (total : ℚ) = (p.2 : ℚ) * (100 / (total : ℚ)) := by
    intro p; ring
  calc (counts.map (fun p => (p.2 : ℚ) * 100 / (total : ℚ))).sum
      = (counts.map (fun p => (p.2 : ℚ) * (100 / (total : ℚ)))).sum := by
        simp only [hfun]
    _ = (counts.map (fun p => ((p.2 : ℚ)))).sum * (100 / (total : ℚ)) :=
        sum_map_mul_const counts (fun p => ((p.2 : ℚ))) (100 / (total : ℚ))
    _ = (total : ℚ) * (100 / (total : ℚ)) := by rw [sum_map_snd_cast, hsum]
    _ = 100 := by field_simp

theorem format_breakdown_sum_close (counts : List (String × Nat)) (total : Nat)
    (hsum : sumSnd counts = total) (ht : 0 < total) :
    |pctSum (format_breakdown counts total) - 100| ≤
      ((format_breakdown counts total).length : ℚ) * (1 / 20) := by
  rw [format_breakdown, if_pos ht]
  have hlen : ((counts.map (fun p => (p.1, p.2, roundPct p.2 total))).length : ℚ) =
      (counts.length : ℚ) := by rw [List.length_map]
  rw [hlen]
  have hpct : pctSum (counts.map (fun p => (p.1, p.2, roundPct p.2 total))) =
      (counts.map (fun p => roundPct p.2 total)).sum := by
    rw [pctSum, List.map_map]
    rfl
  rw [hpct]
  have hclose := sum_sub_sum_abs_le (fun p : String × Nat => roundPct p.2 total)
    (fun p : String × Nat => (p.2 : ℚ) * 100 / (total : ℚ)) (1 / 20) counts
    (fun p _ => roundPct_close p.2 total)
  rw [sum_exact_pct counts total hsum ht] at hclose
  exact hclose

theorem format_breakdown_tenths (counts : List (String × Nat)) (total : Nat) :
    ∀ e ∈ format_breakdown counts total, ∃ z : ℤ, e.2.2 = (z : ℚ) / 10 := by
  intro e he
  rw [format_breakdown] at he
  split_ifs at he
  · obtain ⟨p, _, hp⟩ := List.mem_map.mp he
    exact ⟨pyRoundHalfEven ((p.2 : ℚ) * 100 / (total : ℚ) * 10), by
      rw [← hp]; rfl⟩
  · obtain ⟨p, _, hp⟩ := List.mem_map.mp he
    exact ⟨0, by rw [← hp]; norm_num⟩

/-! Claim theorems. -/

/-- C5: every authenticated scan call inserts exactly one provisional
Attendance row - event_type check_in, is_valid True, the provisional source
tag, the session user identity, the current America/New_York local date with
the UTC date as fallback on timezone failure, and the requested site when it
is in the allow-list or the default site otherwise - and returns the
generated row id as the continuation token; the insertion happens for every
prior table state, so no duplicate check is performed at this step. -/
theorem scan_always_inserts_provisional_row (u : SessionUser)
    (site : Option String) (sites : List String) (defaultSite : String)
    (nowUtc : DateTime) (estDate : Option Date) (state : List Attendance) :
    scan true (some u) site sites defaultSite nowUtc estDate state =
      (.page (toString (freshId state)) (resolveSite site sites defaultSite),
       state ++ [{ id := freshId state
                   site := resolveSite site sites defaultSite
                   event_type := "check_in"
                   is_valid := true
                   source := "qr_scan_provisional"
                   timestamp_utc := nowUtc
                   local_date := localDateOf nowUtc estDate
                   user_name := u.name
                   user_email := u.email }]) := rfl

/-- C6: the daily_checkins_last_week endpoint never returns its seven-label
chart: for every table state it raises TypeError while building the query,
because cast(Attendance.timestamp_utc, date) receives the Python class
datetime.date instead of the SQLAlchemy Date type and SQLAlchemy calls that
class with no arguments. -/
theorem daily_checkins_last_week_always_type_errors
    (rows : List Attendance) (today : Nat) :
    get_daily_checkins_last_week rows today = .error .typeError := rfl

/-- C9: every admin add, edit or delete call whose request lacks the matching
admin_auth cookie leaves the Attendance table completely unchanged and
answers with a redirect to the admin login page. -/
theorem admin_ops_require_admin_cookie (cookie : Option String)
    (form : AddForm) (eform : EditForm) (recordId : Int) (offEast : Nat)
    (state : List Attendance)
    (h : cookie ≠ some "super_secret_token") :
    admin_add_record cookie form offEast state = (.redirectLogin, state) ∧
    admin_edit_record cookie eform offEast state = (.redirectLogin, state) ∧
    admin_delete_record cookie recordId state = (.redirectLogin, state) := by
  have hb : (cookie == some adminToken) = false := by
    rw [beq_eq_false_iff_ne]
    simpa [adminToken] using h
  refine ⟨?_, ?_, ?_⟩ <;>
    simp [admin_add_record, admin_edit_record, admin_delete_record, hb]

/-- Witness for C9 at a concrete missing cookie and nonempty table. -/
theorem admin_ops_require_admin_cookie_witness :
    admin_add_record none ⟨"Ann", "Work", none, "greensboro", "2025-01-10T09:00"⟩ 300
        [{ id := 1, event_type := "check_in", timestamp_utc := ⟨⟨2025, 1, 10⟩, 14, 0⟩,
           local_date := "2025-01-10", site := "greensboro" }] =
      (.redirectLogin,
       [{ id := 1, event_type := "check_in", timestamp_utc := ⟨⟨2025, 1, 10⟩, 14, 0⟩,
          local_date := "2025-01-10", site := "greensboro" }]) ∧
    admin_edit_record none ⟨1, "Ann", "Work", none, "greensboro", "2025-01-10T09:00"⟩ 300
        [{ id := 1, event_type := "check_in", timestamp_utc := ⟨⟨2025, 1, 10⟩, 14, 0⟩,
           local_date := "2025-01-10", site := "greensboro" }] =
      (.redirectLogin,
       [{ id := 1, event_type := "check_in", timestamp_utc := ⟨⟨2025, 1, 10⟩, 14, 0⟩,
          local_date := "2025-01-10", site := "greensboro" }]) ∧
    admin_delete_record none 1
        [{ id := 1, event_type := "check_in", timestamp_utc := ⟨⟨2025, 1, 10⟩, 14, 0⟩,
           local_date := "2025-01-10", site := "greensboro" }] =
      (.redirectLogin,
       [{ id := 1, event_type := "check_in", timestamp_utc := ⟨⟨2025, 1, 10⟩, 14, 0⟩,
          local_date := "2025-01-10", site := "greensboro" }]) :=
  admin_ops_require_admin_cookie none
    ⟨"Ann", "Work", none, "greensboro", "2025-01-10T09:00"⟩
    ⟨1, "Ann", "Work", none, "greensboro", "2025-01-10T09:00"⟩ 1 300
    [{ id := 1, event_type := "check_in", timestamp_utc := ⟨⟨2025, 1, 10⟩, 14, 0⟩,
       local_date := "2025-01-10", site := "greensboro" }] (by decide)

/-- C4: a finalize token that Python int() rejects yields a 400, a parseable
token with no matching Attendance row yields a 404, and in both failure cases
the table is unchanged. -/
theorem finalize_invalid_token_and_not_found (payload : FinalizePayload)
    (sessionEmail : Option String) (todayEast : String)
    (state : List Attendance) :
    (pyInt payload.token = none →
      finalize payload sessionEmail todayEast state =
        (.httpError 400 "Invalid token", state)) ∧
    (∀ pk : Int, pyInt payload.token = some pk →
      state.find? (fun r => (r.id : Int) == pk) = none →
      finalize payload sessionEmail todayEast state =
        (.httpError 404 "Token not found", state)) := by
  constructor
  · intro h
    simp [finalize, h]
  · intro pk h hf
    simp [finalize, h, hf]

/-- Witness for C4: a non-numeric token on an empty table gives the 400, a
numeric token with no row gives the 404, both leaving the table empty. -/
theorem finalize_invalid_token_and_not_found_witness :
    finalize ⟨"abc", "greensboro", none, none, none, none, none⟩ none
        "2025-01-10" [] = (.httpError 400 "Invalid token", []) ∧
    finalize ⟨"5", "greensboro", none, none, none, none, none⟩ none
        "2025-01-10" [] = (.httpError 404 "Token not found", []) :=
  ⟨(finalize_invalid_token_and_not_found
      ⟨"abc", "greensboro", none, none, none, none, none⟩ none "2025-01-10" []).1
      (by decide),
   (finalize_invalid_token_and_not_found
      ⟨"5", "greensboro", none, none, none, none, none⟩ none "2025-01-10" []).2 5
      (by decide) (by decide)⟩

/-- C1: when the session email already has a different valid finalized
check_in row dated today (whatever its site), finalize marks the token row
invalid with the explanatory note and the duplicate source tag, keeps every
row of the table (nothing is deleted), and answers ok False with the message
Already checked in today. -/
theorem finalize_rejects_same_day_duplicate (payload : FinalizePayload)
    (e : String) (pk : Int) (recRow dup : Attendance) (todayEast : String)
    (state : List Attendance)
    (hparse : pyInt payload.token = some pk)
    (hfind : state.find? (fun r => (r.id : Int) == pk) = some recRow)
    (hemail : e ≠ "")
    (hevt : recRow.event_type = "check_in")
    (hmem : dup ∈ state)
    (hid : (dup.id : Int) ≠ pk)
    (hld : dup.local_date = todayEast)
    (hue : dup.user_email = some e)
    (hdevt : dup.event_type = "check_in")
    (hval : dup.is_valid = true)
    (hsrc : dup.source = "qr_scan_finalized") :
    finalize payload (some e) todayEast state =
      (.dupRejected "Already checked in today.", state.map (invalidateDup pk)) ∧
    (state.map (invalidateDup pk)).length = state.length ∧
    { recRow with is_valid := false
                  notes := some "Attempted duplicate check-in."
                  source := "qr_scan_duplicate" } ∈ state.map (invalidateDup pk) := by
  have hany : state.any (fun r =>
      (r.id : Int) != pk &&
      r.local_date == todayEast &&
      r.user_email == some e &&
      r.event_type == "check_in" &&
      r.is_valid &&
      r.source == "qr_scan_finalized") = true := by
    rw [List.any_eq_true]
    refine ⟨dup, hmem, ?_⟩
    simp [hid, hld, hue, hdevt, hval, hsrc]
  have hdup : duplicateFound (some e) pk recRow.event_type todayEast state = true := by
    simp [duplicateFound, hany, hevt, hemail]
  refine ⟨?_, List.length_map state (invalidateDup pk), ?_⟩
  · simp [finalize, hparse, hfind, hdup]
  · have hrec : recRow ∈ state := List.mem_of_find?_eq_some hfind
    have hpk := List.find?_some hfind
    have hval : invalidateDup pk recRow =
        { recRow with is_valid := false
                      notes := some "Attempted duplicate check-in."
                      source := "qr_scan_duplicate" } := by
      rw [invalidateDup, if_pos hpk]
    rw [← hval]
    exact List.mem_map_of_mem (invalidateDup pk) hrec

/-- Witness for C1: the session email a@x.com already holds a valid finalized
check_in dated 2025-01-10 at site remote; finalizing a provisional row of the
same day at site greensboro is rejected and the provisional row is kept,
invalidated, with the note and the duplicate tag. -/
theorem finalize_rejects_same_day_duplicate_witness :
    finalize ⟨"2", "greensboro", none, none, none, none, none⟩
        (some "a@x.com") "2025-01-10"
        [{ id := 1, event_type := "check_in",
           timestamp_utc := ⟨⟨2025, 1, 10⟩, 13, 0⟩, local_date := "2025-01-10",
           site := "remote", user_email := some "a@x.com",
           source := "qr_scan_finalized" },
         { id := 2, event_type := "check_in",
           timestamp_utc := ⟨⟨2025, 1, 10⟩, 14, 0⟩, local_date := "2025-01-10",
           site := "greensboro", user_email := some "a@x.com",
           source := "qr_scan_provisional" }] =
      (.dupRejected "Already checked in today.",
       [{ id := 1, event_type := "check_in",
          timestamp_utc := ⟨⟨2025, 1, 10⟩, 13, 0⟩, local_date := "2025-01-10",
          site := "remote", user_email := some "a@x.com",
          source := "qr_scan_finalized" },
        { id := 2, event_type := "check_in",
          timestamp_utc := ⟨⟨2025, 1, 10⟩, 14, 0⟩, local_date := "2025-01-10",
          site := "greensboro", user_email := some "a@x.com",
          source := "qr_scan_provisional" }].map (invalidateDup 2)) ∧
    ([{ id := 1, event_type := "check_in",
        timestamp_utc := ⟨⟨2025, 1, 10⟩, 13, 0⟩, local_date := "2025-01-10",
        site := "remote", user_email := some "a@x.com",
        source := "qr_scan_finalized" },
      { id := 2, event_type := "check_in",
        timestamp_utc := ⟨⟨2025, 1, 10⟩, 14, 0⟩, local_date := "2025-01-10",
        site := "greensboro", user_email := some "a@x.com",
        source := "qr_scan_provisional" }].map (invalidateDup 2)).length = 2 ∧
    { id := 2, event_type := "check_in",
      timestamp_utc := ⟨⟨2025, 1, 10⟩, 14, 0⟩, local_date := "2025-01-10",
      site := "greensboro", user_email := some "a@x.com",
      source := "qr_scan_duplicate", is_valid := false,
      notes := some "Attempted duplicate check-in." } ∈
      [{ id := 1, event_type := "check_in",
         timestamp_utc := ⟨⟨2025, 1, 10⟩, 13, 0⟩, local_date := "2025-01-10",
         site := "remote", user_email := some "a@x.com",
         source := "qr_scan_finalized" },
       { id := 2, event_type := "check_in",
         timestamp_utc := ⟨⟨2025, 1, 10⟩, 14, 0⟩, local_date := "2025-01-10",
         site := "greensboro", user_email := some "a@x.com",
         source := "qr_scan_provisional" }].map (invalidateDup 2) :=
  finalize_rejects_same_day_duplicate
    ⟨"2", "greensboro", none, none, none, none, none⟩ "a@x.com" 2
    { id := 2, event_type := "check_in",
      timestamp_utc := ⟨⟨2025, 1, 10⟩, 14, 0⟩, local_date := "2025-01-10",
      site := "greensboro", user_email := some "a@x.com",
      source := "qr_scan_provisional" }
    { id := 1, event_type := "check_in",
      timestamp_utc := ⟨⟨2025, 1, 10⟩, 13, 0⟩, local_date := "2025-01-10",
      site := "remote", user_email := some "a@x.com",
      source := "qr_scan_finalized" }
    "2025-01-10"
    [{ id := 1, event_type := "check_in",
       timestamp_utc := ⟨⟨2025, 1, 10⟩, 13, 0⟩, local_date := "2025-01-10",
       site := "remote", user_email := some "a@x.com",
       source := "qr_scan_finalized" },
     { id := 2, event_type := "check_in",
       timestamp_utc := ⟨⟨2025, 1, 10⟩, 14, 0⟩, local_date := "2025-01-10",
       site := "greensboro", user_email := some "a@x.com",
       source := "qr_scan_provisional" }]
    (by decide) (by decide) (by decide) (by decide) (by decide) (by decide)
    (by decide) (by decide) (by decide) (by decide) (by decide)

/-- C3: a finalize call whose token resolves to a row and that passes the
duplicate check never reaches the success response: line 145 reads
payload.visitReason, a field FinalizePayload does not declare, so pydantic
raises AttributeError, the framework answers 500 and the uncommitted field
updates are rolled back, leaving the table unchanged - instead of the row
being updated with device, user agent, geolocation and visit reason, the
source being promoted to qr_scan_finalized and ok True being returned. -/
theorem finalize_crashes_on_missing_visit_reason_field
    (payload : FinalizePayload) (sessionEmail : Option String) (pk : Int)
    (recRow : Attendance) (todayEast : String) (state : List Attendance)
    (hparse : pyInt payload.token = some pk)
    (hfind : state.find? (fun r => (r.id : Int) == pk) = some recRow)
    (hnodup : duplicateFound sessionEmail pk recRow.event_type todayEast state = false) :
    finalize payload sessionEmail todayEast state = (.attributeError, state) := by
  simp [finalize, hparse, hfind, hnodup]

/-- Witness for C3: an authenticated user with no prior finalized check-in
finalizes a fresh provisional row with device, user agent, geolocation and a
visit reason in the request, and receives the AttributeError outcome with
the table unchanged. -/
theorem finalize_crashes_on_missing_visit_reason_field_witness :
    finalize ⟨"1", "greensboro", some "dev-7", some "Mozilla", 
        some ⟨some (359 / 10 : ℚ), some (-797 / 10 : ℚ)⟩, none, none⟩
      (some "a@x.com") "2025-01-10"
      [{ id := 1, event_type := "check_in",
         timestamp_utc := ⟨⟨2025, 1, 10⟩, 14, 0⟩, local_date := "2025-01-10",
         site := "greensboro", user_email := some "a@x.com",
         source := "qr_scan_provisional" }] =
      (.attributeError,
       [{ id := 1, event_type := "check_in",
          timestamp_utc := ⟨⟨2025, 1, 10⟩, 14, 0⟩, local_date := "2025-01-10",
          site := "greensboro", user_email := some "a@x.com",
          source := "qr_scan_provisional" }]) :=
  finalize_crashes_on_missing_visit_reason_field
    ⟨"1", "greensboro", some "dev-7", some "Mozilla",
        some ⟨some (359 / 10 : ℚ), some (-797 / 10 : ℚ)⟩, none, none⟩
    (some "a@x.com") 1
    { id := 1, event_type := "check_in",
      timestamp_utc := ⟨⟨2025, 1, 10⟩, 14, 0⟩, local_date := "2025-01-10",
      site := "greensboro", user_email := some "a@x.com",
      source := "qr_scan_provisional" }
    "2025-01-10"
    [{ id := 1, event_type := "check_in",
       timestamp_utc := ⟨⟨2025, 1, 10⟩, 14, 0⟩, local_date := "2025-01-10",
       site := "greensboro", user_email := some "a@x.com",
       source := "qr_scan_provisional" }]
    (by decide) (by decide) (by decide)

/-- C10: a finalize call with no authenticated session email skips the
duplicate check entirely (the guard at line 103 is false), so the provisional
row is never invalidated even when another valid finalized check_in row of
its stored user_email exists for the same local date; the call then proceeds
to the finalize step - where the missing visitReason field makes it raise
AttributeError instead of returning the ok True body, leaving the table
unchanged. -/
theorem finalize_without_session_skips_duplicate_check
    (payload : FinalizePayload) (pk : Int) (recRow : Attendance)
    (todayEast : String) (state : List Attendance)
    (hparse : pyInt payload.token = some pk)
    (hfind : state.find? (fun r => (r.id : Int) == pk) = some recRow) :
    duplicateFound none pk recRow.event_type todayEast state = false ∧
    finalize payload none todayEast state = (.attributeError, state) := by
  refine ⟨rfl, ?_⟩
  simp [finalize, hparse, hfind, duplicateFound]

/-- Witness for C10: the table already holds a valid finalized check_in of
b@y.com dated 2025-01-10, the token row stores the same email and date, yet
with no session email the duplicate check reports nothing and the call takes
the finalize path (reaching the AttributeError), with no row invalidated. -/
theorem finalize_without_session_skips_duplicate_check_witness :
    duplicateFound none 2 "check_in" "2025-01-10"
      [{ id := 1, event_type := "check_in",
         timestamp_utc := ⟨⟨2025, 1, 10⟩, 13, 0⟩, local_date := "2025-01-10",
         site := "greensboro", user_email := some "b@y.com",
         source := "qr_scan_finalized" },
       { id := 2, event_type := "check_in",
         timestamp_utc := ⟨⟨2025, 1, 10⟩, 14, 0⟩, local_date := "2025-01-10",
         site := "greensboro", user_email := some "b@y.com",
         source := "qr_scan_provisional" }] = false ∧
    finalize ⟨"2", "greensboro", none, none, none, none, none⟩ none "2025-01-10"
      [{ id := 1, event_type := "check_in",
         timestamp_utc := ⟨⟨2025, 1, 10⟩, 13, 0⟩, local_date := "2025-01-10",
         site := "greensboro", user_email := some "b@y.com",
         source := "qr_scan_finalized" },
       { id := 2, event_type := "check_in",
         timestamp_utc := ⟨⟨2025, 1, 10⟩, 14, 0⟩, local_date := "2025-01-10",
         site := "greensboro", user_email := some "b@y.com",
         source := "qr_scan_provisional" }] =
      (.attributeError,
       [{ id := 1, event_type := "check_in",
          timestamp_utc := ⟨⟨2025, 1, 10⟩, 13, 0⟩, local_date := "2025-01-10",
          site := "greensboro", user_email := some "b@y.com",
          source := "qr_scan_finalized" },
        { id := 2, event_type := "check_in",
          timestamp_utc := ⟨⟨2025, 1, 10⟩, 14, 0⟩, local_date := "2025-01-10",
          site := "greensboro", user_email := some "b@y.com",
          source := "qr_scan_provisional" }]) :=
  finalize_without_session_skips_duplicate_check
    ⟨"2", "greensboro", none, none, none, none, none⟩ 2
    { id := 2, event_type := "check_in",
      timestamp_utc := ⟨⟨2025, 1, 10⟩, 14, 0⟩, local_date := "2025-01-10",
      site := "greensboro", user_email := some "b@y.com",
      source := "qr_scan_provisional" }
    "2025-01-10"
    [{ id := 1, event_type := "check_in",
       timestamp_utc := ⟨⟨2025, 1, 10⟩, 13, 0⟩, local_date := "2025-01-10",
       site := "greensboro", user_email := some "b@y.com",
       source := "qr_scan_finalized" },
     { id := 2, event_type := "check_in",
       timestamp_utc := ⟨⟨2025, 1, 10⟩, 14, 0⟩, local_date := "2025-01-10",
       site := "greensboro", user_email := some "b@y.com",
       source := "qr_scan_provisional" }]
    (by decide) (by decide)

/-- C2: concrete run showing that no finalize ever succeeds as finalized: a
scan by the authenticated email a@x.com inserts provisional row 1, and the
very first finalize of that token returns the AttributeError outcome (raised
at the missing visitReason field) with the table unchanged, so the finalized
count of that email and date stays 0 - rather than the first finalize
succeeding as finalized. The at-most-one part of the claim holds only
vacuously, since the qr_scan_finalized tag is never committed by any code
path. -/
theorem finalize_first_attempt_never_finalizes :
    scan true (some ⟨some "Ann", some "a@x.com"⟩) (some "greensboro")
        ["greensboro", "remote"] "greensboro" ⟨⟨2025, 1, 10⟩, 14, 0⟩
        (some ⟨2025, 1, 10⟩) [] =
      (.page "1" "greensboro",
       [{ id := 1, event_type := "check_in",
          timestamp_utc := ⟨⟨2025, 1, 10⟩, 14, 0⟩, local_date := "2025-01-10",
          site := "greensboro", user_name := some "Ann",
          user_email := some "a@x.com", source := "qr_scan_provisional" }]) ∧
    finalize ⟨"1", "greensboro", none, none, none, none, none⟩
        (some "a@x.com") "2025-01-10"
        [{ id := 1, event_type := "check_in",
           timestamp_utc := ⟨⟨2025, 1, 10⟩, 14, 0⟩, local_date := "2025-01-10",
           site := "greensboro", user_name := some "Ann",
           user_email := some "a@x.com", source := "qr_scan_provisional" }] =
      (.attributeError,
       [{ id := 1, event_type := "check_in",
          timestamp_utc := ⟨⟨2025, 1, 10⟩, 14, 0⟩, local_date := "2025-01-10",
          site := "greensboro", user_name := some "Ann",
          user_email := some "a@x.com", source := "qr_scan_provisional" }]) ∧
    finalizedValidCount "a@x.com" "2025-01-10"
        [{ id := 1, event_type := "check_in",
           timestamp_utc := ⟨⟨2025, 1, 10⟩, 14, 0⟩, local_date := "2025-01-10",
           site := "greensboro", user_name := some "Ann",
           user_email := some "a@x.com", source := "qr_scan_provisional" }] = 0 := by
  decide

/-- C7: for every table state and month, each breakdown percentage of the
monthly summary is a multiple of one tenth of a percent (rounded to one
decimal place, within one twentieth of the exact share), the reported reason
percentages and the reported business-line percentages each sum to 100 up to
the accumulated rounding slack of one twentieth per key when the month total
is positive, and with a zero month total both breakdowns are empty, so zero
percent is reported cleanly with no division by zero. -/
theorem monthly_summary_percentages (rows : List Attendance) (year month : Nat) :
    (0 < (get_monthly_summary rows year month).total_checkins →
      |pctSum (get_monthly_summary rows year month).reason_breakdown - 100| ≤
        ((get_monthly_summary rows year month).reason_breakdown.length : ℚ) * (1 / 20) ∧
      |pctSum (get_monthly_summary rows year month).business_line_breakdown - 100| ≤
        ((get_monthly_summary rows year month).business_line_breakdown.length : ℚ) * (1 / 20)) ∧
    ((get_monthly_summary rows year month).total_checkins = 0 →
      (get_monthly_summary rows year month).reason_breakdown = [] ∧
      (get_monthly_summary rows year month).business_line_breakdown = []) ∧
    (∀ e ∈ (get_monthly_summary rows year month).reason_breakdown,
      ∃ z : ℤ, e.2.2 = (z : ℚ) / 10) ∧
    (∀ e ∈ (get_monthly_summary rows year month).business_line_breakdown,
      ∃ z : ℤ, e.2.2 = (z : ℚ) / 10) := by
  have h1 : (get_monthly_summary rows year month).total_checkins =
      (monthRecords rows year month).length := rfl
  have h2 : (get_monthly_summary rows year month).reason_breakdown =
      format_breakdown (countsBy (fun r => keyOr r.visit_reason) (monthRecords rows year month))
        (monthRecords rows year month).length := rfl
  have h3 : (get_monthly_summary rows year month).business_line_breakdown =
      format_breakdown (countsBy (fun r => keyOr r.business_line) (monthRecords rows year month))
        (monthRecords rows year month).length := rfl
  rw [h1, h2, h3]
  refine ⟨fun ht => ⟨?_, ?_⟩, fun h0 => ?_, ?_, ?_⟩
  · exact format_breakdown_sum_close _ _ (sumSnd_countsBy _ _) ht
  · exact format_breakdown_sum_close _ _ (sumSnd_countsBy _ _) ht
  · have hnil : monthRecords rows year month = [] := List.length_eq_zero.mp h0
    rw [hnil]
    exact ⟨rfl, rfl⟩
  · exact format_breakdown_tenths _ _
  · exact format_breakdown_tenths _ _

/-- Witness for C7 on a concrete January 2025 table with three valid
check-ins (reasons Work, Work and Visit): the reported reason percentages
sum to 100 within the rounding slack, and the summary total is positive. -/
theorem monthly_summary_percentages_witness :
    |pctSum (get_monthly_summary
        [{ id := 1, event_type := "check_in",
           timestamp_utc := ⟨⟨2025, 1, 10⟩, 13, 0⟩, local_date := "2025-01-10",
           site := "greensboro", visit_reason := some "Work" },
         { id := 2, event_type := "check_in",
           timestamp_utc := ⟨⟨2025, 1, 11⟩, 13, 0⟩, local_date := "2025-01-11",
           site := "greensboro", visit_reason := some "Work" },
         { id := 3, event_type := "check_in",
           timestamp_utc := ⟨⟨2025, 1, 12⟩, 13, 0⟩, local_date := "2025-01-12",
           site := "greensboro", visit_reason := some "Visit" }] 2025 1).reason_breakdown
      - 100| ≤
    ((get_monthly_summary
        [{ id := 1, event_type := "check_in",
           timestamp_utc := ⟨⟨2025, 1, 10⟩, 13, 0⟩, local_date := "2025-01-10",
           site := "greensboro", visit_reason := some "Work" },
         { id := 2, event_type := "check_in",
           timestamp_utc := ⟨⟨2025, 1, 11⟩, 13, 0⟩, local_date := "2025-01-11",
           site := "greensboro", visit_reason := some "Work" },
         { id := 3, event_type := "check_in",
           timestamp_utc := ⟨⟨2025, 1, 12⟩, 13, 0⟩, local_date := "2025-01-12",
           site := "greensboro", visit_reason := some "Visit" }] 2025 1).reason_breakdown.length : ℚ)
      * (1 / 20) :=
  ((monthly_summary_percentages
      [{ id := 1, event_type := "check_in",
         timestamp_utc := ⟨⟨2025, 1, 10⟩, 13, 0⟩, local_date := "2025-01-10",
         site := "greensboro", visit_reason := some "Work" },
       { id := 2, event_type := "check_in",
         timestamp_utc := ⟨⟨2025, 1, 11⟩, 13, 0⟩, local_date := "2025-01-11",
         site := "greensboro", visit_reason := some "Work" },
       { id := 3, event_type := "check_in",
         timestamp_utc := ⟨⟨2025, 1, 12⟩, 13, 0⟩, local_date := "2025-01-12",
         site := "greensboro", visit_reason := some "Visit" }] 2025 1).1
    (by decide)).1

/-- C8: with a matching admin cookie and a well-formed custom_date, the admin
add route inserts a row whose timestamp_utc is the America/New_York to UTC
conversion of the input and whose local_date is the calendar date the admin
typed, and the admin edit route rewrites the found row the same way - so the
stored local_date keeps the input day even when the UTC conversion crosses
into the next calendar date. -/
theorem admin_custom_date_sets_local_date_from_input (cookie : Option String)
    (form : AddForm) (eform : EditForm) (offEast : Nat)
    (state : List Attendance) (dt det : DateTime) (recRow : Attendance)
    (hc : cookie = some "super_secret_token")
    (hp : parseCustomDate form.custom_date = some dt)
    (hq : parseCustomDate eform.custom_date = some det)
    (hfind : state.find? (fun r => (r.id : Int) == eform.record_id) = some recRow) :
    admin_add_record cookie form offEast state =
      (.redirectAdmin, state ++ [adminNewRec form dt offEast (freshId state)]) ∧
    (adminNewRec form dt offEast (freshId state)).local_date = formatDate dt.date ∧
    (adminNewRec form dt offEast (freshId state)).timestamp_utc = toUTC dt offEast ∧
    admin_edit_record cookie eform offEast state =
      (.redirectAdmin, state.map (fun r =>
        if (r.id : Int) == eform.record_id then
          editDate (editFields r eform) eform.custom_date offEast
        else r)) ∧
    ∀ r : Attendance,
      (editDate (editFields r eform) eform.custom_date offEast).local_date =
        formatDate det.date ∧
      (editDate (editFields r eform) eform.custom_date offEast).timestamp_utc =
        toUTC det offEast := by
  have hcb : (cookie == some adminToken) = true := by
    rw [hc]
    decide
  refine ⟨?_, rfl, rfl, ?_, ?_⟩
  · simp [admin_add_record, hcb, hp]
  · simp [admin_edit_record, hcb, hfind]
  · intro r
    simp [editDate, hq]

/-- Witness for C8 at the day-boundary input 2025-01-10T23:30 under EST
(offset 300 minutes): the inserted row keeps local_date 2025-01-10 while its
stored UTC timestamp is 04:30 on 2025-01-11, the next calendar day. -/
theorem admin_custom_date_sets_local_date_from_input_witness :
    (adminNewRec ⟨"Ann", "Work", none, "greensboro", "2025-01-10T23:30"⟩
        ⟨⟨2025, 1, 10⟩, 23, 30⟩ 300 2).local_date = "2025-01-10" ∧
    (adminNewRec ⟨"Ann", "Work", none, "greensboro", "2025-01-10T23:30"⟩
        ⟨⟨2025, 1, 10⟩, 23, 30⟩ 300 2).timestamp_utc = ⟨⟨2025, 1, 11⟩, 4, 30⟩ :=
  ⟨(admin_custom_date_sets_local_date_from_input (some "super_secret_token")
      ⟨"Ann", "Work", none, "greensboro", "2025-01-10T23:30"⟩
      ⟨1, "Ann", "Work", none, "greensboro", "2025-01-10T23:30"⟩ 300
      [{ id := 1, event_type := "check_in",
         timestamp_utc := ⟨⟨2025, 1, 9⟩, 14, 0⟩, local_date := "2025-01-09",
         site := "greensboro" }]
      ⟨⟨2025, 1, 10⟩, 23, 30⟩ ⟨⟨2025, 1, 10⟩, 23, 30⟩
      { id := 1, event_type := "check_in",
        timestamp_utc := ⟨⟨2025, 1, 9⟩, 14, 0⟩, local_date := "2025-01-09",
        site := "greensboro" }
      rfl (by decide) (by decide) (by decide)).2.1,
   (admin_custom_date_sets_local_date_from_input (some "super_secret_token")
      ⟨"Ann", "Work", none, "greensboro", "2025-01-10T23:30"⟩
      ⟨1, "Ann", "Work", none, "greensboro", "2025-01-10T23:30"⟩ 300
      [{ id := 1, event_type := "check_in",
         timestamp_utc := ⟨⟨2025, 1, 9⟩, 14, 0⟩, local_date := "2025-01-09",
         site := "greensboro" }]
      ⟨⟨2025, 1, 10⟩, 23, 30⟩ ⟨⟨2025, 1, 10⟩, 23, 30⟩
      { id := 1, event_type := "check_in",
        timestamp_utc := ⟨⟨2025, 1, 9⟩, 14, 0⟩, local_date := "2025-01-09",
        site := "greensboro" }
      rfl (by decide) (by decide) (by decide)).2.2.1⟩
